import Mathlib

/-!
Shallow embedding of the SoundGoodDB command executor (`src/controller.rs`
together with the gateway layer `src/db.rs`).

The database state visible to one transaction is modelled as an explicit
`DB` value; gateway functions from `db.rs` become pure functions on `DB`.
The controller (`Controller` in `controller.rs`) holds the committed store
state plus an optional open transaction view, mirroring the
`transaction: Option<Transaction>` slot.  Controller operations return the
`Result<ControlResult, ControlError>` value, the updated controller, and
the trace of gateway calls issued (used for the lock-ordering property).

Rust's `str::parse::<iN>` is modelled faithfully (sign handling, digit
validation, range check) so that `ParseIntError` paths are observable.
Store-level faults of `commit`/`rollback`/`begin` are passed in as explicit
`Except` oracles; data-dependent failures (`fetch_one` on an empty result)
are derived from the state.
-/

/-- Error kinds of Rust's `ParseIntError` that can arise from `str::parse::<iN>`. -/
inductive IntErrorKind
  | empty
  | invalidDigit
  | posOverflow
  | negOverflow
deriving DecidableEq, Repr

/-- Display string of a `ParseIntError`, as produced by Rust's `fmt::Display`. -/
def IntErrorKind.message : IntErrorKind → String
  | .empty => "cannot parse integer from empty string"
  | .invalidDigit => "invalid digit found in string"
  | .posOverflow => "number too large to fit in target type"
  | .negOverflow => "number too small to fit in target type"

/-- Numeric value of an ASCII digit character, `none` for a non-digit. -/
def digitVal (ch : Char) : Option Nat :=
  if ch.isDigit then some (ch.toNat - 48) else none

/-- Digit-accumulation loop of Rust's `from_str_radix` (radix 10): each step
multiplies by 10 and adds (positive) or subtracts (negative) the digit,
failing with the matching overflow kind when the accumulator leaves
`[lo, hi]`, or with `invalidDigit` on a non-digit character. -/
def parseDigitsAcc (lo hi : Int) (pos : Bool) : List Char → Int → Except IntErrorKind Int
  | [], acc => .ok acc
  | ch :: rest, acc =>
    match digitVal ch with
    | none => .error .invalidDigit
    | some d =>
      let acc' := if pos then acc * 10 + (d : Int) else acc * 10 - (d : Int)
      if acc' > hi then .error .posOverflow
      else if acc' < lo then .error .negOverflow
      else parseDigitsAcc lo hi pos rest acc'

/-- Rust `str::parse` for a signed integer type with range `[lo, hi]`:
empty input fails with `empty`, a lone sign with `invalidDigit`, otherwise
the digit loop runs on the remainder. -/
def parseIntRange (lo hi : Int) (s : String) : Except IntErrorKind Int :=
  match s.toList with
  | [] => .error .empty
  | c :: rest =>
    if c = '+' then
      match rest with
      | [] => .error .invalidDigit
      | _ :: _ => parseDigitsAcc lo hi true rest 0
    else if c = '-' then
      match rest with
      | [] => .error .invalidDigit
      | _ :: _ => parseDigitsAcc lo hi false rest 0
    else parseDigitsAcc lo hi true (c :: rest) 0

/-- Rust `str::parse::<i32>`. -/
def parseI32 (s : String) : Except IntErrorKind Int :=
  parseIntRange (-2147483648) 2147483647 s

/-- Rust `str::parse::<i64>`. -/
def parseI64 (s : String) : Except IntErrorKind Int :=
  parseIntRange (-9223372036854775808) 9223372036854775807 s

/-- The store-level error (`sqlx::Error`): only the `RowNotFound` case is
produced by the modelled data-dependent paths; `other` stands for any
further store fault, carrying its display string. -/
inductive SqlxError
  | rowNotFound
  | other (s : String)
deriving DecidableEq, Repr

/-- Display string of an `sqlx::Error`. -/
def SqlxError.message : SqlxError → String
  | .rowNotFound => "no rows returned by a query that expected to return at least one row"
  | .other s => s

/-- Row of the `instrument_types` table (`InstrumentType` in `db.rs`). -/
structure InstrumentType where
  instrument_type_id : Int
  instrument_type : String
deriving DecidableEq, Repr

/-- Row of the `instruments` table (`Instrument` in `db.rs`).  `price` is the
`BigDecimal` column; it is never used numerically by the controller, only
spliced into the display string, so it is kept as its rendered text. -/
structure Instrument where
  instrument_id : Int
  instrument_type_id : Int
  brand : String
  model : String
  price : String
  count : Int
deriving DecidableEq, Repr

/-- Row of the `rentings` table (`Renting` in `db.rs`).  `OffsetDateTime`
timestamps are modelled as integers; `end_date` is `NULL`-able, absent
meaning the renting is currently active. -/
structure Renting where
  rent_id : Int
  student_id : Int
  instrument_id : Int
  start_date : Int
  end_date : Option Int
deriving DecidableEq, Repr

/-- `Instrument::to_string` from `db.rs`: the availability-annotated
display line built by `Controller::list`. -/
def Instrument.to_string (i : Instrument) (available : Int) : String :=
  "ID:" ++ toString i.instrument_id ++ " => " ++ i.model ++ " by " ++ i.brand ++
    ". Price " ++ i.price ++ " with " ++ toString available ++
    " left to rent out of a total " ++ toString i.count ++ "."

/-- `Renting::get_id`. -/
def Renting.get_id (r : Renting) : Int := r.rent_id

/-- `Instrument::get_id`. -/
def Instrument.get_id (i : Instrument) : Int := i.instrument_id

/-- `Instrument::get_count`. -/
def Instrument.get_count (i : Instrument) : Int := i.count

/-- The database state visible to one transaction: the three tables used by
the executor, the `business_rules` key-value table, the clock backing
`CURRENT_TIMESTAMP`, and the next serial value of `rentings.rent_id`. -/
structure DB where
  instruments : List Instrument
  instrument_types : List InstrumentType
  rentings : List Renting
  business_rules : List (String × String)
  now : Int
  next_rent_id : Int
deriving DecidableEq, Repr

/-- Key of the per-user rental cap in `business_rules` (`MAX_RENTALS_KEY`). -/
def MAX_RENTALS_KEY : String := "rent_max_count"

namespace db

/-- `db::list_all`: `SELECT * FROM instruments` (a `fetch_all`, so an empty
table is an empty list, not an error). -/
def list_all (d : DB) : List Instrument := d.instruments

/-- SQL `LIKE` for the only pattern shape the executor builds
(`format!("\x7b\x7d%", t.to_lowercase())`): a literal prefix followed by a
single trailing `%`, matching any string that starts with that prefix. -/
def likeTrailingPercent (pat s : String) : Bool :=
  s.startsWith (pat.dropRight 1)

/-- `db::list_type`: `fetch_one` on `instrument_types WHERE instrument_type
LIKE pat` (first matching row, `RowNotFound` when none), then `fetch_all`
of the instruments of that type. -/
def list_type (d : DB) (t : String) : Except SqlxError (List Instrument) :=
  match d.instrument_types.find? (fun r => likeTrailingPercent t r.instrument_type) with
  | none => .error .rowNotFound
  | some r => .ok (d.instruments.filter (fun i => i.instrument_type_id == r.instrument_type_id))

/-- `db::count_instrument_rentals`: `COUNT(*)` over rentings of the
instrument with `end_date IS NULL` (an aggregate always returns one row,
so the call is infallible in the model). -/
def count_instrument_rentals (d : DB) (i_id : Int) : Int :=
  ((d.rentings.filter (fun r => r.instrument_id == i_id && r.end_date.isNone)).length : Int)

/-- `db::count_user_rentals`: `COUNT(*)` over rentings of the student with
`end_date IS NULL`. -/
def count_user_rentals (d : DB) (u_id : Int) : Int :=
  ((d.rentings.filter (fun r => r.student_id == u_id && r.end_date.isNone)).length : Int)

/-- `db::rent`: `INSERT INTO rentings (student_id, instrument_id,
start_date) VALUES (u, i, CURRENT_TIMESTAMP)`; the fresh row takes the next
serial `rent_id`, the current timestamp, and a `NULL` end date; the insert
affects exactly one row. -/
def rent (d : DB) (u i : Int) : Nat × DB :=
  (1,
   { d with
       rentings := d.rentings ++ [⟨d.next_rent_id, u, i, d.now, none⟩],
       next_rent_id := d.next_rent_id + 1 })

/-- `db::find_to_terminate`: all rentings with this student AND this
instrument AND `end_date IS NULL` (a `fetch_all`). -/
def find_to_terminate (d : DB) (u i : Int) : List Renting :=
  d.rentings.filter (fun r => r.student_id == u && r.instrument_id == i && r.end_date.isNone)

/-- `db::terminate_rid`: `UPDATE rentings SET end_date = CURRENT_TIMESTAMP
WHERE rent_id = id`, returning the number of rows affected. -/
def terminate_rid (d : DB) (id : Int) : Nat × DB :=
  ((d.rentings.filter (fun r => r.rent_id == id)).length,
   { d with
       rentings := d.rentings.map
         (fun r => if r.rent_id == id then { r with end_date := some d.now } else r) })

/-- `db::get_max_rentals`: `fetch_one` of `SELECT value FROM business_rules
WHERE name = MAX_RENTALS_KEY` — the first matching row's value, or
`RowNotFound` when the key is absent. -/
def get_max_rentals (d : DB) : Except SqlxError String :=
  match d.business_rules.find? (fun r => r.1 == MAX_RENTALS_KEY) with
  | none => .error .rowNotFound
  | some r => .ok r.2

end db

/-- `ControlResult` from `controller.rs`: the success value of each command
(`u64` row counts become `Nat`). -/
inductive ControlResult
  | Begin
  | Commit
  | List (v : List String)
  | Rent (n : Nat)
  | Rollback
  | Terminate (n : Nat)
  | TryTerminate (n : Nat)
deriving DecidableEq, Repr

/-- `ControlError` from `controller.rs`. -/
inductive ControlError
  | Converted (s : String)
  | TerminateMultiple (v : List Renting)
  | TooManyRentals
  | TransactionNone
deriving DecidableEq, Repr

/-- `impl From<ParseIntError> for ControlError`: the converted error carries
the formatted message `ParseInt error: ...`. -/
def ControlError.fromParseIntError (e : IntErrorKind) : ControlError :=
  .Converted ("ParseInt error: " ++ e.message)

/-- `impl From<sqlx::Error> for ControlError`: the converted error carries
the formatted message `SQL error: ...`. -/
def ControlError.fromSqlxError (e : SqlxError) : ControlError :=
  .Converted ("SQL error: " ++ e.message)

/-- One gateway call issued by the executor, for the call-ordering trace. -/
inductive Event
  | lockRentings (u i : Int)
  | getMaxRentals
  | countUserRentals (u : Int)
  | countInstrumentRentals (i : Int)
  | insertRental (u i : Int)
  | findToTerminate (u i : Int)
  | terminateRid (id : Int)
  | listAll
  | listType (pat : String)
deriving DecidableEq, Repr

/-- The executor (`Controller` in `controller.rs`): the committed store
state (what a fresh transaction sees) and the `transaction:
Option<Transaction>` slot, whose `some` payload is the open transaction's
working view of the store.  The `Option` slot is exactly the
zero-or-one-handles ownership model of the source. -/
structure Controller where
  committed : DB
  transaction : Option DB
deriving DecidableEq, Repr

/-- `u_i_parse` from `controller.rs`: parse the user then the instrument
identifier as `i32`, converting the first `ParseIntError` via `From`. -/
def u_i_parse (u i : String) : Except ControlError (Int × Int) :=
  match parseI32 u with
  | .error e => .error (ControlError.fromParseIntError e)
  | .ok a =>
    match parseI32 i with
    | .error e => .error (ControlError.fromParseIntError e)
    | .ok b => .ok (a, b)

namespace Controller

/-- `Controller::begin`: `self.transaction.take()` — if a handle was open it
is rolled back first (its view discarded), then a fresh handle is opened on
the committed state.  The store outcomes of the old handle's rollback and
of `pool.begin()` are passed in as oracles; a store fault propagates via
`?` after the slot has already been emptied by `take()`. -/
def begin (c : Controller) (rollbackResult beginResult : Except SqlxError Unit) :
    Except ControlError ControlResult × Controller :=
  match c.transaction with
  | some _ =>
    match rollbackResult with
    | .error e => (.error (ControlError.fromSqlxError e), { c with transaction := none })
    | .ok _ =>
      match beginResult with
      | .error e => (.error (ControlError.fromSqlxError e), { c with transaction := none })
      | .ok _ => (.ok .Begin, { c with transaction := some c.committed })
  | none =>
    match beginResult with
    | .error e => (.error (ControlError.fromSqlxError e), c)
    | .ok _ => (.ok .Begin, { c with transaction := some c.committed })

/-- `Controller::commit`: `take()` the handle (else `TransactionNone`), then
commit it; the store outcome is an oracle.  The slot is emptied before the
commit is awaited, so it stays empty on either outcome; on success the
transaction's view becomes the committed state. -/
def commit (c : Controller) (storeResult : Except SqlxError Unit) :
    Except ControlError ControlResult × Controller :=
  match c.transaction with
  | none => (.error .TransactionNone, c)
  | some tx =>
    match storeResult with
    | .error e => (.error (ControlError.fromSqlxError e), { c with transaction := none })
    | .ok _ => (.ok .Commit, { committed := tx, transaction := none })

/-- `Controller::rollback`: `take()` the handle (else `TransactionNone`),
then roll it back, discarding its view; the store outcome is an oracle. -/
def rollback (c : Controller) (storeResult : Except SqlxError Unit) :
    Except ControlError ControlResult × Controller :=
  match c.transaction with
  | none => (.error .TransactionNone, c)
  | some _ =>
    match storeResult with
    | .error e => (.error (ControlError.fromSqlxError e), { c with transaction := none })
    | .ok _ => (.ok .Rollback, { c with transaction := none })

/-- `Controller::rent`: parse the identifiers, guard the transaction, lock
the rentings rows for this user OR instrument, read and parse the
configured cap, count the user's active rentals, and either fail with
`TooManyRentals` (no insert) or insert one active renting and return the
affected-row count.  Returns the result, the updated controller, and the
trace of gateway calls. -/
def rent (c : Controller) (user inst : String) :
    Except ControlError ControlResult × Controller × List Event :=
  match u_i_parse user inst with
  | .error e => (.error e, c, [])
  | .ok (u, i) =>
    match c.transaction with
    | none => (.error .TransactionNone, c, [])
    | some tx =>
      match db.get_max_rentals tx with
      | .error e =>
          (.error (ControlError.fromSqlxError e), c,
           [.lockRentings u i, .getMaxRentals])
      | .ok s =>
        match parseI64 s with
        | .error e =>
            (.error (ControlError.fromParseIntError e), c,
             [.lockRentings u i, .getMaxRentals])
        | .ok max =>
          let ur := db.count_user_rentals tx u
          if ur ≥ max then
            (.error .TooManyRentals, c,
             [.lockRentings u i, .getMaxRentals, .countUserRentals u])
          else
            let r := db.rent tx u i
            (.ok (.Rent r.1), { c with transaction := some r.2 },
             [.lockRentings u i, .getMaxRentals, .countUserRentals u, .insertRental u i])

/-- `Controller::try_terminate`: parse the identifiers, guard the
transaction, lock the rentings rows for this user OR instrument, query the
matching active rentings, then split on their number: zero fails with the
converted `RowNotFound`, one is terminated by its identity, more fail with
`TerminateMultiple` carrying the whole list. -/
def try_terminate (c : Controller) (user inst : String) :
    Except ControlError ControlResult × Controller × List Event :=
  match u_i_parse user inst with
  | .error e => (.error e, c, [])
  | .ok (u, i) =>
    match c.transaction with
    | none => (.error .TransactionNone, c, [])
    | some tx =>
      let vec := db.find_to_terminate tx u i
      match vec with
      | [] =>
          (.error (ControlError.fromSqlxError .rowNotFound), c,
           [.lockRentings u i, .findToTerminate u i])
      | [r] =>
          let t := db.terminate_rid tx r.get_id
          (.ok (.TryTerminate t.1), { c with transaction := some t.2 },
           [.lockRentings u i, .findToTerminate u i, .terminateRid r.get_id])
      | _ =>
          (.error (.TerminateMultiple vec), c,
           [.lockRentings u i, .findToTerminate u i])

/-- `Controller::terminate`: guard the transaction first, then parse the
renting identifier as `i32`, then update that row's end date, returning the
affected-row count (0 when no such row, not an error at this layer). -/
def terminate (c : Controller) (id : String) :
    Except ControlError ControlResult × Controller × List Event :=
  match c.transaction with
  | none => (.error .TransactionNone, c, [])
  | some tx =>
    match parseI32 id with
    | .error e => (.error (ControlError.fromParseIntError e), c, [])
    | .ok i =>
      let t := db.terminate_rid tx i
      (.ok (.Terminate t.1), { c with transaction := some t.2 }, [.terminateRid i])

/-- The availability loop of `Controller::list`: for each fetched
instrument, `available = count - active rental count`; only instruments
with `available > 0` contribute their display line. -/
def listLoop (d : DB) : List Instrument → List String
  | [] => []
  | i :: rest =>
    let available := i.get_count - db.count_instrument_rentals d i.get_id
    if available > 0 then i.to_string available :: listLoop d rest
    else listLoop d rest

/-- `Controller::list`: guard the transaction, fetch all instruments or the
instruments whose type matches the lowercased filter as a `LIKE` prefix;
an empty fetched row set fails with the converted `RowNotFound`; the
availability loop then builds the (possibly empty) result lines. -/
def list (c : Controller) (o : Option String) :
    Except ControlError ControlResult × Controller × List Event :=
  match c.transaction with
  | none => (.error .TransactionNone, c, [])
  | some tx =>
    let fetched : Except SqlxError (List Instrument) × Event :=
      match o with
      | some t => (db.list_type tx (t.toLower ++ "%"), .listType (t.toLower ++ "%"))
      | none => (.ok (db.list_all tx), .listAll)
    match fetched.1 with
    | .error e => (.error (ControlError.fromSqlxError e), c, [fetched.2])
    | .ok rows =>
      if rows.isEmpty then
        (.error (ControlError.fromSqlxError .rowNotFound), c, [fetched.2])
      else
        (.ok (.List (listLoop tx rows)), c,
         fetched.2 :: rows.map (fun i => .countInstrumentRentals i.get_id))

/-- Iterated `rent`: the controller state after `n` successive `rent` calls
with the same arguments (each call's result is discarded, its state kept). -/
def rentIter (c : Controller) (user inst : String) : Nat → Controller
  | 0 => c
  | n + 1 => ((rentIter c user inst n).rent user inst).2.1

end Controller

/-- A transaction view with one instrument (two owned), one instrument
type, no rentings, and the rental cap configured as `2` — matching the
shape of the test fixtures in `controller.rs`. -/
def txW : DB :=
  ⟨[⟨1, 1, "B", "M", "10.00", 2⟩], [⟨1, "guitar"⟩], [], [(MAX_RENTALS_KEY, "2")], 0, 1⟩

/-- An executor with `txW` both committed and open. -/
def ctrlW : Controller := ⟨txW, some txW⟩

/-- A transaction view like `txW` but with exactly one active renting of
student 3 on instrument 1. -/
def txOne : DB :=
  ⟨[⟨1, 1, "B", "M", "10.00", 2⟩], [⟨1, "guitar"⟩], [⟨5, 3, 1, 0, none⟩],
   [(MAX_RENTALS_KEY, "2")], 0, 6⟩

/-- An executor with `txOne` open. -/
def ctrlOne : Controller := ⟨txOne, some txOne⟩

/-- A transaction view whose single instrument (one owned) is fully rented
out: the fetched row set of `list` is non-empty, the availability filter
removes everything. -/
def txFull : DB :=
  ⟨[⟨1, 1, "B", "M", "10.00", 1⟩], [⟨1, "guitar"⟩], [⟨5, 3, 1, 0, none⟩],
   [(MAX_RENTALS_KEY, "2")], 0, 6⟩

/-- An executor with `txFull` open. -/
def ctrlFull : Controller := ⟨txFull, some txFull⟩

/-- A transaction view whose configured rental cap value is the malformed
string `abc`. -/
def txBadCfg : DB :=
  ⟨[⟨1, 1, "B", "M", "10.00", 2⟩], [⟨1, "guitar"⟩], [], [(MAX_RENTALS_KEY, "abc")], 0, 1⟩

/-- An executor with `txBadCfg` open. -/
def ctrlBadCfg : Controller := ⟨txBadCfg, some txBadCfg⟩

/-- An executor with no open transaction handle. -/
def ctrlNoTx : Controller := ⟨txW, none⟩

/-- Inserting a renting preserves the `business_rules` table, hence the
configured cap. -/
theorem get_max_rentals_rent (tx : DB) (u i : Int) :
    db.get_max_rentals (db.rent tx u i).2 = db.get_max_rentals tx := rfl

/-- Inserting a renting for user `u` raises that user's active-rental count
by exactly one: the fresh row is active and carries `u`. -/
theorem count_user_rentals_rent (tx : DB) (u i : Int) :
    db.count_user_rentals (db.rent tx u i).2 u = db.count_user_rentals tx u + 1 := by
  simp [db.count_user_rentals, db.rent, List.filter_append]

/-- Every renting returned by `find_to_terminate` is active (its `end_date`
is absent): the query filters on `end_date IS NULL`. -/
theorem find_to_terminate_active (tx : DB) (u i : Int) :
    ∀ r ∈ db.find_to_terminate tx u i, r.end_date = none := by
  intro r hr
  simp only [db.find_to_terminate, List.mem_filter, Bool.and_eq_true, beq_iff_eq,
    Option.isNone_iff_eq_none] at hr
  exact hr.2.2

/-- Branch lemma for `Controller::rent` under the cap: when the user's
active-rental count has reached the configured maximum, the call fails with
`TooManyRentals`, the controller is unchanged, and no insert event is
issued. -/
theorem rent_cap_hit (c : Controller) (user inst : String) (u i : Int) (tx : DB)
    (s : String) (max : Int)
    (hp : u_i_parse user inst = .ok (u, i)) (ht : c.transaction = some tx)
    (hs : db.get_max_rentals tx = .ok s) (hm : parseI64 s = .ok max)
    (hge : db.count_user_rentals tx u ≥ max) :
    c.rent user inst =
      (.error .TooManyRentals, c,
       [.lockRentings u i, .getMaxRentals, .countUserRentals u]) := by
  unfold Controller.rent
  rw [hp, ht]
  dsimp only
  rw [hs]
  dsimp only
  rw [hm]
  simp [hge]

/-- Branch lemma for `Controller::rent` below the cap: the call inserts one
active renting into the transaction view and returns `Rent 1`. -/
theorem rent_below_cap (c : Controller) (user inst : String) (u i : Int) (tx : DB)
    (s : String) (max : Int)
    (hp : u_i_parse user inst = .ok (u, i)) (ht : c.transaction = some tx)
    (hs : db.get_max_rentals tx = .ok s) (hm : parseI64 s = .ok max)
    (hlt : db.count_user_rentals tx u < max) :
    c.rent user inst =
      (.ok (.Rent 1), { c with transaction := some (db.rent tx u i).2 },
       [.lockRentings u i, .getMaxRentals, .countUserRentals u, .insertRental u i]) := by
  unfold Controller.rent
  rw [hp, ht]
  dsimp only
  rw [hs]
  dsimp only
  rw [hm]
  simp [not_le.mpr hlt, db.rent]

/-- Invariant of iterated `rent`: as long as the accumulated count stays at
or below the cap, the iterated controller still has an open transaction
whose configured cap value is unchanged and whose active-rental count for
the user has grown by exactly the number of iterations. -/
theorem rentIter_spec (c : Controller) (user inst : String) (u i : Int) (tx : DB)
    (s : String) (max : Int)
    (hp : u_i_parse user inst = .ok (u, i)) (ht : c.transaction = some tx)
    (hs : db.get_max_rentals tx = .ok s) (hm : parseI64 s = .ok max) :
    ∀ j : Nat, db.count_user_rentals tx u + j ≤ max →
      ∃ txj, (Controller.rentIter c user inst j).transaction = some txj ∧
        db.get_max_rentals txj = .ok s ∧
        db.count_user_rentals txj u = db.count_user_rentals tx u + j := by
  intro j
  induction j with
  | zero => intro _; exact ⟨tx, ht, hs, by simp⟩
  | succ n ih =>
    intro hle
    have hn : db.count_user_rentals tx u + (n : Int) ≤ max := by
      push_cast at hle ⊢; omega
    obtain ⟨txn, htn, hsn, hcn⟩ := ih hn
    have hlt : db.count_user_rentals txn u < max := by
      rw [hcn]; push_cast at hle ⊢; omega
    refine ⟨(db.rent txn u i).2, ?_, ?_, ?_⟩
    · show ((Controller.rentIter c user inst n).rent user inst).2.1.transaction = _
      rw [rent_below_cap _ user inst u i txn s max hp htn hsn hm hlt]
    · rw [get_max_rentals_rent, hsn]
    · rw [count_user_rentals_rent, hcn]; push_cast; ring

/-- C1: within an open transaction, with valid identifiers and a
well-formed configured cap, `rent` fails with the cap error and inserts
nothing when the user's active-rental count is at or above the cap,
otherwise inserts exactly one new active renting (end timestamp absent)
and returns the affected-row count 1; iterating `rent`, every call made
while the accumulated count is below the cap succeeds, and the call made
once the count has reached the cap fails with the cap error and leaves the
controller unchanged — so after N successful calls starting from zero with
N = cap, the (N+1)-th fails and inserts nothing. -/
theorem C1_rent_cap_enforced (c : Controller) (user inst : String) (u i : Int)
    (tx : DB) (s : String) (max : Int)
    (hp : u_i_parse user inst = .ok (u, i)) (ht : c.transaction = some tx)
    (hs : db.get_max_rentals tx = .ok s) (hm : parseI64 s = .ok max) :
    (db.count_user_rentals tx u ≥ max →
      c.rent user inst =
        (.error .TooManyRentals, c,
         [.lockRentings u i, .getMaxRentals, .countUserRentals u])) ∧
    (db.count_user_rentals tx u < max →
      c.rent user inst =
        (.ok (.Rent 1), { c with transaction := some (db.rent tx u i).2 },
         [.lockRentings u i, .getMaxRentals, .countUserRentals u, .insertRental u i]) ∧
      (db.rent tx u i).2.rentings =
        tx.rentings ++ [⟨tx.next_rent_id, u, i, tx.now, none⟩] ∧
      db.count_user_rentals (db.rent tx u i).2 u = db.count_user_rentals tx u + 1) ∧
    (∀ j : Nat, db.count_user_rentals tx u + j < max →
      ((Controller.rentIter c user inst j).rent user inst).1 = .ok (.Rent 1)) ∧
    (∀ j : Nat, db.count_user_rentals tx u + j = max →
      ((Controller.rentIter c user inst j).rent user inst).1 = .error .TooManyRentals ∧
      ((Controller.rentIter c user inst j).rent user inst).2.1 =
        Controller.rentIter c user inst j) := by
  refine ⟨?_, ?_, ?_, ?_⟩
  · intro hge
    exact rent_cap_hit c user inst u i tx s max hp ht hs hm hge
  · intro hlt
    exact ⟨rent_below_cap c user inst u i tx s max hp ht hs hm hlt, rfl,
      count_user_rentals_rent tx u i⟩
  · intro j hj
    obtain ⟨txj, htj, hsj, hcj⟩ :=
      rentIter_spec c user inst u i tx s max hp ht hs hm j (le_of_lt hj)
    have hlt : db.count_user_rentals txj u < max := by rw [hcj]; exact hj
    rw [rent_below_cap _ user inst u i txj s max hp htj hsj hm hlt]
  · intro j hj
    obtain ⟨txj, htj, hsj, hcj⟩ :=
      rentIter_spec c user inst u i tx s max hp ht hs hm j (le_of_eq hj)
    have hge : db.count_user_rentals txj u ≥ max := by rw [hcj, hj]
    rw [rent_cap_hit _ user inst u i txj s max hp htj hsj hm hge]
    exact ⟨rfl, rfl⟩

/-- Witness for C1 at the fixture state: cap 2, user 3, instrument 1, zero
active rentals; the two first calls succeed, the third fails with the cap
error and leaves the state unchanged. -/
theorem C1_rent_cap_enforced_witness :
    u_i_parse "3" "1" = .ok (3, 1) ∧
    db.get_max_rentals txW = .ok "2" ∧
    parseI64 "2" = .ok 2 ∧
    ((Controller.rentIter ctrlW "3" "1" 0).rent "3" "1").1 = .ok (.Rent 1) ∧
    ((Controller.rentIter ctrlW "3" "1" 1).rent "3" "1").1 = .ok (.Rent 1) ∧
    ((Controller.rentIter ctrlW "3" "1" 2).rent "3" "1").1 = .error .TooManyRentals := by
  have h := C1_rent_cap_enforced ctrlW "3" "1" 3 1 txW "2" 2 rfl rfl rfl rfl
  exact ⟨rfl, rfl, rfl,
    h.2.2.1 0 (by decide), h.2.2.1 1 (by decide), (h.2.2.2 2 (by decide)).1⟩

/-- C2: within an open transaction with valid identifiers,
`try_terminate` splits on the active rentings matching exactly this user
and instrument: zero matches fails with the converted `RowNotFound` and
changes nothing; exactly one match terminates that renting by its identity
and returns the affected-row count; two or more matches fails with
`TerminateMultiple` carrying exactly the matching list, changes nothing,
and every carried renting is still active (end timestamp absent). -/
theorem C2_try_terminate_cases (c : Controller) (user inst : String) (u i : Int)
    (tx : DB)
    (hp : u_i_parse user inst = .ok (u, i)) (ht : c.transaction = some tx) :
    (db.find_to_terminate tx u i = [] →
      c.try_terminate user inst =
        (.error (ControlError.fromSqlxError .rowNotFound), c,
         [.lockRentings u i, .findToTerminate u i])) ∧
    (∀ r, db.find_to_terminate tx u i = [r] →
      c.try_terminate user inst =
        (.ok (.TryTerminate (db.terminate_rid tx r.get_id).1),
         { c with transaction := some (db.terminate_rid tx r.get_id).2 },
         [.lockRentings u i, .findToTerminate u i, .terminateRid r.get_id])) ∧
    (∀ r1 r2 rest, db.find_to_terminate tx u i = r1 :: r2 :: rest →
      c.try_terminate user inst =
        (.error (.TerminateMultiple (r1 :: r2 :: rest)), c,
         [.lockRentings u i, .findToTerminate u i])) ∧
    (∀ r ∈ db.find_to_terminate tx u i, r.end_date = none) := by
  refine ⟨?_, ?_, ?_, find_to_terminate_active tx u i⟩
  · intro hv
    unfold Controller.try_terminate
    rw [hp, ht]
    dsimp only
    rw [hv]
  · intro r hv
    unfold Controller.try_terminate
    rw [hp, ht]
    dsimp only
    rw [hv]
  · intro r1 r2 rest hv
    unfold Controller.try_terminate
    rw [hp, ht]
    dsimp only
    rw [hv]

/-- Witness for C2 at the fixture state with exactly one matching active
renting: it is terminated by its identity and one row is affected. -/
theorem C2_try_terminate_cases_witness :
    u_i_parse "3" "1" = .ok (3, 1) ∧
    db.find_to_terminate txOne 3 1 = [⟨5, 3, 1, 0, none⟩] ∧
    ctrlOne.try_terminate "3" "1" =
      (.ok (.TryTerminate 1),
       { ctrlOne with transaction := some (db.terminate_rid txOne 5).2 },
       [.lockRentings 3 1, .findToTerminate 3 1, .terminateRid 5]) := by
  have h := (C2_try_terminate_cases ctrlOne "3" "1" 3 1 txOne rfl rfl).2.1
    ⟨5, 3, 1, 0, none⟩ rfl
  exact ⟨rfl, rfl, h⟩

/-- Counterexample to C3: in `txFull` every fetched instrument is fully
rented out, so the final result set (after the availability filter) is
empty; yet `list` returns the empty success `List []` instead of failing
with the converted `RowNotFound` — the emptiness check runs on the fetched
row set before availability is computed. -/
theorem C3_list_counterexample :
    Controller.listLoop txFull (db.list_all txFull) = [] ∧
    (db.list_all txFull).isEmpty = false ∧
    (ctrlFull.list none).1 = .ok (.List []) :=
  ⟨rfl, rfl, rfl⟩

/-- C3 amended: `list` fails with the converted `RowNotFound` exactly when
the fetched row set (all instruments, or the instruments of the resolved
type) is empty — including when the type filter resolves to no
instrument type; when rows are fetched, the availability loop's output is
returned as a success even when it is empty. -/
theorem C3_list_empty_check (c : Controller) (tx : DB) (ht : c.transaction = some tx) :
    (db.list_all tx = [] →
      c.list none =
        (.error (ControlError.fromSqlxError .rowNotFound), c, [.listAll])) ∧
    (db.list_all tx ≠ [] →
      c.list none =
        (.ok (.List (Controller.listLoop tx (db.list_all tx))), c,
         .listAll :: (db.list_all tx).map (fun i => .countInstrumentRentals i.get_id))) ∧
    (∀ t, db.list_type tx (t.toLower ++ "%") = .error .rowNotFound →
      c.list (some t) =
        (.error (ControlError.fromSqlxError .rowNotFound), c,
         [.listType (t.toLower ++ "%")])) ∧
    (∀ t, db.list_type tx (t.toLower ++ "%") = .ok [] →
      c.list (some t) =
        (.error (ControlError.fromSqlxError .rowNotFound), c,
         [.listType (t.toLower ++ "%")])) ∧
    (∀ t rows, db.list_type tx (t.toLower ++ "%") = .ok rows → rows ≠ [] →
      c.list (some t) =
        (.ok (.List (Controller.listLoop tx rows)), c,
         .listType (t.toLower ++ "%") :: rows.map (fun i => .countInstrumentRentals i.get_id))) := by
  refine ⟨?_, ?_, ?_, ?_, ?_⟩
  · intro hv
    unfold Controller.list
    rw [ht]
    dsimp only
    simp [hv]
  · intro hv
    unfold Controller.list
    rw [ht]
    dsimp only
    simp [List.isEmpty_iff, hv]
  · intro t hv
    unfold Controller.list
    rw [ht]
    dsimp only
    rw [hv]
  · intro t hv
    unfold Controller.list
    rw [ht]
    dsimp only
    rw [hv]
    rfl
  · intro t rows hv hne
    unfold Controller.list
    rw [ht]
    dsimp only
    rw [hv]
    simp [List.isEmpty_iff, hne]

/-- Witness for the amended C3 on the fixture: one instrument with spare
capacity is fetched and listed. -/
theorem C3_list_empty_check_witness :
    db.list_all txW ≠ [] ∧
    ctrlW.list none =
      (.ok (.List ["ID:1 => M by B. Price 10.00 with 2 left to rent out of a total 2."]),
       ctrlW, [.listAll, .countInstrumentRentals 1]) := by
  have h := (C3_list_empty_check ctrlW txW rfl).2.1 (by decide)
  exact ⟨by decide, h⟩

/-- Counterexample to C4: with no open transaction, `rent` on the
malformed user identifier `x` fails with the converted parse error, not
with `TransactionNone` — `u_i_parse` runs before the guard in both `rent`
and `try_terminate`, so the claim does not hold for every input. -/
theorem C4_no_transaction_counterexample :
    (ctrlNoTx.rent "x" "1").1 =
      .error (ControlError.Converted "ParseInt error: invalid digit found in string") ∧
    (ctrlNoTx.try_terminate "x" "1").1 =
      .error (ControlError.Converted "ParseInt error: invalid digit found in string") ∧
    ControlError.Converted "ParseInt error: invalid digit found in string" ≠
      ControlError.TransactionNone :=
  ⟨rfl, rfl, by decide⟩

/-- C4 amended: with no open transaction, `terminate` and `list` fail with
`TransactionNone` for every input, and `rent` and `try_terminate` fail
with `TransactionNone` for every input whose identifiers parse (for
malformed identifiers the parse error wins, since parsing precedes the
guard); in every such case the controller is unchanged and the gateway
trace is empty — no gateway call is made. -/
theorem C4_guard_no_transaction (c : Controller) (user inst id : String)
    (o : Option String) (u i : Int)
    (ht : c.transaction = none) (hp : u_i_parse user inst = .ok (u, i)) :
    c.rent user inst = (.error .TransactionNone, c, []) ∧
    c.try_terminate user inst = (.error .TransactionNone, c, []) ∧
    c.terminate id = (.error .TransactionNone, c, []) ∧
    c.list o = (.error .TransactionNone, c, []) := by
  refine ⟨?_, ?_, ?_, ?_⟩
  · unfold Controller.rent
    rw [hp, ht]
  · unfold Controller.try_terminate
    rw [hp, ht]
  · unfold Controller.terminate
    rw [ht]
  · unfold Controller.list
    rw [ht]

/-- Witness for the amended C4 at the fixture executor with an empty
transaction slot and well-formed identifiers. -/
theorem C4_guard_no_transaction_witness :
    u_i_parse "3" "1" = .ok (3, 1) ∧
    ctrlNoTx.rent "3" "1" = (.error .TransactionNone, ctrlNoTx, []) ∧
    ctrlNoTx.try_terminate "3" "1" = (.error .TransactionNone, ctrlNoTx, []) ∧
    ctrlNoTx.terminate "7" = (.error .TransactionNone, ctrlNoTx, []) ∧
    ctrlNoTx.list none = (.error .TransactionNone, ctrlNoTx, []) := by
  have h := C4_guard_no_transaction ctrlNoTx "3" "1" "7" none 3 1 rfl rfl
  exact ⟨rfl, h.1, h.2.1, h.2.2.1, h.2.2.2⟩

/-- C7: the availability loop of `list` maps each fetched instrument to
`available = totalOwned - active rental count` and keeps exactly those
with `available > 0`, rendering each kept instrument's display line — so
an instrument whose active-rental count equals its owned count
(`available = 0`) is excluded, while `available = 1` is included. -/
theorem C7_list_availability (d : DB) (rows : List Instrument) :
    Controller.listLoop d rows =
      (rows.filter
        (fun i => decide (i.get_count - db.count_instrument_rentals d i.get_id > 0))).map
        (fun i => i.to_string (i.get_count - db.count_instrument_rentals d i.get_id)) := by
  induction rows with
  | nil => rfl
  | cons a rest ih =>
    by_cases h : a.get_count - db.count_instrument_rentals d a.get_id > 0
    · have h2 : db.count_instrument_rentals d a.get_id < a.get_count := sub_pos.mp h
      simp [Controller.listLoop, List.filter_cons, h, h2, ih]
    · have h2 : ¬ db.count_instrument_rentals d a.get_id < a.get_count :=
        fun hc => h (sub_pos.mpr hc)
      simp [Controller.listLoop, List.filter_cons, h, h2, ih]

/-- Counterexample to C8: `rent` with well-formed identifiers over the
malformed configured cap value `abc` fails with exactly the same converted
error value as `rent` with the malformed user identifier `abc` — both
parse failures are funnelled through the one `From<ParseIntError>`
conversion, so the configuration error is not distinct from the
identifier error. -/
theorem C8_config_error_counterexample :
    (ctrlBadCfg.rent "3" "1").1 =
      .error (ControlError.Converted "ParseInt error: invalid digit found in string") ∧
    (ctrlBadCfg.rent "abc" "1").1 =
      .error (ControlError.Converted "ParseInt error: invalid digit found in string") ∧
    (ctrlBadCfg.rent "3" "1").1 = (ctrlBadCfg.rent "abc" "1").1 :=
  ⟨rfl, rfl, rfl⟩

/-- C8 amended: during `rent` the configured cap value is read and parsed
as an integer, and a malformed value fails with the converted parse error
(`Converted "ParseInt error: ..."`) after the lock and configuration read,
with no count and no insert — but this is the same error representation
that malformed user or item identifiers produce, not a distinct one. -/
theorem C8_config_parse_error (c : Controller) (user inst : String) (u i : Int)
    (tx : DB) (s : String) (k : IntErrorKind)
    (hp : u_i_parse user inst = .ok (u, i)) (ht : c.transaction = some tx)
    (hs : db.get_max_rentals tx = .ok s) (hk : parseI64 s = .error k) :
    c.rent user inst =
      (.error (ControlError.fromParseIntError k), c,
       [.lockRentings u i, .getMaxRentals]) ∧
    (∀ user2 inst2, u_i_parse user2 inst2 = .error (ControlError.fromParseIntError k) →
      (c.rent user2 inst2).1 = .error (ControlError.fromParseIntError k)) := by
  constructor
  · unfold Controller.rent
    rw [hp, ht]
    dsimp only
    rw [hs]
    dsimp only
    rw [hk]
  · intro user2 inst2 hp2
    unfold Controller.rent
    rw [hp2]

/-- Witness for the amended C8 at the fixture state with the malformed cap
value `abc` and well-formed identifiers. -/
theorem C8_config_parse_error_witness :
    db.get_max_rentals txBadCfg = .ok "abc" ∧
    parseI64 "abc" = .error .invalidDigit ∧
    ctrlBadCfg.rent "3" "1" =
      (.error (ControlError.fromParseIntError .invalidDigit), ctrlBadCfg,
       [.lockRentings 3 1, .getMaxRentals]) := by
  have h := (C8_config_parse_error ctrlBadCfg "3" "1" 3 1 txBadCfg "abc"
    .invalidDigit rfl rfl rfl rfl).1
  exact ⟨rfl, rfl, h⟩

/-- C9: within an open transaction with valid identifiers, the gateway
traces of both `rent` and `try_terminate` begin with the wide row lock
over the user OR the instrument — the lock is the first gateway call, so
it precedes every count of active rentals and every query of matching
rentals these operations issue. -/
theorem C9_lock_first (c : Controller) (user inst : String) (u i : Int) (tx : DB)
    (hp : u_i_parse user inst = .ok (u, i)) (ht : c.transaction = some tx) :
    (∃ rest, (c.rent user inst).2.2 = Event.lockRentings u i :: rest) ∧
    (∃ rest, (c.try_terminate user inst).2.2 = Event.lockRentings u i :: rest) := by
  constructor
  · unfold Controller.rent
    rw [hp, ht]
    dsimp only
    cases hq : db.get_max_rentals tx with
    | error e => exact ⟨_, rfl⟩
    | ok s =>
      dsimp only
      cases hm : parseI64 s with
      | error e => exact ⟨_, rfl⟩
      | ok max =>
        dsimp only
        by_cases hge : db.count_user_rentals tx u ≥ max
        · rw [if_pos hge]; exact ⟨_, rfl⟩
        · rw [if_neg hge]; exact ⟨_, rfl⟩
  · unfold Controller.try_terminate
    rw [hp, ht]
    dsimp only
    cases hv : db.find_to_terminate tx u i with
    | nil => exact ⟨_, rfl⟩
    | cons r rest =>
      cases rest with
      | nil => exact ⟨_, rfl⟩
      | cons r2 rest2 => exact ⟨_, rfl⟩

/-- Witness for C9 at the fixture state. -/
theorem C9_lock_first_witness :
    u_i_parse "3" "1" = .ok (3, 1) ∧
    (∃ rest, (ctrlW.rent "3" "1").2.2 = Event.lockRentings 3 1 :: rest) ∧
    (∃ rest, (ctrlW.try_terminate "3" "1").2.2 = Event.lockRentings 3 1 :: rest) := by
  have h := C9_lock_first ctrlW "3" "1" 3 1 txW rfl rfl
  exact ⟨rfl, h.1, h.2⟩

/-- C5: `begin` with a handle already open rolls it back first — the old
view is discarded, the committed state is untouched — and opens a fresh
handle on the committed state; with no handle open it opens one directly;
its result value is never the `TransactionNone` error for any store
outcome; and its resulting slot holds either nothing (a store fault during
`begin`) or exactly the one fresh handle, so at most one handle is ever
open — the `Option`-typed slot of `Controller` makes more than one
impossible structurally. -/
theorem C5_begin_single_handle (c : Controller) :
    (∀ t, c.transaction = some t →
      c.begin (.ok ()) (.ok ()) =
        (.ok .Begin, { c with transaction := some c.committed })) ∧
    (c.transaction = none → ∀ rb,
      c.begin rb (.ok ()) =
        (.ok .Begin, { c with transaction := some c.committed })) ∧
    (∀ rb bg, (c.begin rb bg).1 ≠ .error .TransactionNone) ∧
    (∀ rb bg, (c.begin rb bg).2.transaction = none ∨
      (c.begin rb bg).2.transaction = some c.committed) := by
  refine ⟨?_, ?_, ?_, ?_⟩
  · intro t ht
    unfold Controller.begin
    rw [ht]
  · intro ht rb
    unfold Controller.begin
    rw [ht]
  · intro rb bg
    unfold Controller.begin
    cases ht : c.transaction with
    | some t =>
      cases rb with
      | error e => simp [ControlError.fromSqlxError]
      | ok _ =>
        cases bg with
        | error e => simp [ControlError.fromSqlxError]
        | ok _ => simp
    | none =>
      cases bg with
      | error e => simp [ControlError.fromSqlxError]
      | ok _ => simp
  · intro rb bg
    unfold Controller.begin
    cases ht : c.transaction with
    | some t =>
      cases rb with
      | error e => exact Or.inl rfl
      | ok _ =>
        cases bg with
        | error e => exact Or.inl rfl
        | ok _ => exact Or.inr rfl
    | none =>
      cases bg with
      | error e => rw [ht]; exact Or.inl rfl
      | ok _ => exact Or.inr rfl

/-- Witness for C5: beginning over an already-open fixture handle rolls it
back and installs a fresh handle on the committed state. -/
theorem C5_begin_single_handle_witness :
    ctrlW.begin (.ok ()) (.ok ()) =
      (.ok .Begin, { ctrlW with transaction := some ctrlW.committed }) :=
  (C5_begin_single_handle ctrlW).1 txW rfl

/-- C6: `commit` and `rollback` each fail with `TransactionNone` when no
handle is open (leaving the controller unchanged); with an open handle,
`commit` on a successful store outcome commits the handle's view as the
committed state and clears the slot, and `rollback` discards the view and
clears the slot, leaving no open transaction either way. -/
theorem C6_commit_rollback (c : Controller) (tx : DB) :
    (c.transaction = none → ∀ sr,
      c.commit sr = (.error .TransactionNone, c) ∧
      c.rollback sr = (.error .TransactionNone, c)) ∧
    (c.transaction = some tx →
      c.commit (.ok ()) = (.ok .Commit, { committed := tx, transaction := none }) ∧
      c.rollback (.ok ()) = (.ok .Rollback, { c with transaction := none })) := by
  constructor
  · intro ht sr
    constructor
    · unfold Controller.commit
      rw [ht]
    · unfold Controller.rollback
      rw [ht]
  · intro ht
    constructor
    · unfold Controller.commit
      rw [ht]
    · unfold Controller.rollback
      rw [ht]

/-- Witness for C6 on the fixture executors with and without an open
handle. -/
theorem C6_commit_rollback_witness :
    ctrlNoTx.commit (.ok ()) = (.error .TransactionNone, ctrlNoTx) ∧
    ctrlNoTx.rollback (.ok ()) = (.error .TransactionNone, ctrlNoTx) ∧
    ctrlW.commit (.ok ()) = (.ok .Commit, { committed := txW, transaction := none }) ∧
    ctrlW.rollback (.ok ()) = (.ok .Rollback, { ctrlW with transaction := none }) := by
  have h1 := (C6_commit_rollback ctrlNoTx txW).1 rfl (.ok ())
  have h2 := (C6_commit_rollback ctrlW txW).2 rfl
  exact ⟨h1.1, h1.2, h2.1, h2.2⟩

/-- Helper: `commit` with an empty slot fails with `TransactionNone` and
changes nothing. -/
theorem commit_none_slot (c : Controller) (h : c.transaction = none)
    (sr : Except SqlxError Unit) :
    c.commit sr = (.error .TransactionNone, c) := by
  unfold Controller.commit
  rw [h]

/-- Helper: `rollback` with an empty slot fails with `TransactionNone` and
changes nothing. -/
theorem rollback_none_slot (c : Controller) (h : c.transaction = none)
    (sr : Except SqlxError Unit) :
    c.rollback sr = (.error .TransactionNone, c) := by
  unfold Controller.rollback
  rw [h]

/-- C10: once `commit` or `rollback` finds an open handle, the slot is
emptied by `take()` before the store operation is awaited, so whatever the
store outcome — success or any store error — the executor is left with no
open transaction, and a subsequent `commit` or `rollback` fails with
`TransactionNone` instead of retrying the old handle. -/
theorem C10_slot_cleared_before_await (c : Controller) (tx : DB)
    (ht : c.transaction = some tx) :
    ∀ sr : Except SqlxError Unit,
      (c.commit sr).2.transaction = none ∧
      (c.rollback sr).2.transaction = none ∧
      (∀ sr2, ((c.commit sr).2.commit sr2).1 = .error .TransactionNone ∧
        ((c.commit sr).2.rollback sr2).1 = .error .TransactionNone ∧
        ((c.rollback sr).2.commit sr2).1 = .error .TransactionNone ∧
        ((c.rollback sr).2.rollback sr2).1 = .error .TransactionNone) := by
  intro sr
  have hc : (c.commit sr).2.transaction = none := by
    unfold Controller.commit
    rw [ht]
    cases sr with
    | error e => rfl
    | ok _ => rfl
  have hr : (c.rollback sr).2.transaction = none := by
    unfold Controller.rollback
    rw [ht]
    cases sr with
    | error e => rfl
    | ok _ => rfl
  refine ⟨hc, hr, ?_⟩
  intro sr2
  rw [commit_none_slot _ hc sr2, rollback_none_slot _ hc sr2,
    commit_none_slot _ hr sr2, rollback_none_slot _ hr sr2]
  exact ⟨rfl, rfl, rfl, rfl⟩

/-- Witness for C10: a failed store commit on the fixture executor still
clears the slot, and a retried commit reports `TransactionNone`. -/
theorem C10_slot_cleared_before_await_witness :
    (ctrlW.commit (.error (.other "io"))).2.transaction = none ∧
    ((ctrlW.commit (.error (.other "io"))).2.commit (.ok ())).1 =
      .error .TransactionNone := by
  have h := C10_slot_cleared_before_await ctrlW txW rfl (.error (.other "io"))
  exact ⟨h.1, (h.2.2 (.ok ())).1⟩
